import Mathlib

/-!
Verification of `setup_project.py` (python-project-initializer).

The program is modelled as pure Lean functions over explicit state:
- the filesystem is a list of created entries (directories / files by path),
- every external effect (subprocess, HTTP fetch, manifest read) is mediated
  by an `Oracle` of outcome functions,
- each Python function of the source becomes a Lean definition of the same
  name producing the list of side-effect events it performs (and, where the
  source can raise, an `Except`-style error component).
-/

namespace SetupProject

/-- A filesystem path, as its list of segments (what pathlib `Path.parts` yields,
with the leading anchor omitted). -/
abbrev FPath := List String

/-- Kind of a filesystem entry created by the tool. -/
inductive FSKind where
  | dir
  | file
deriving DecidableEq, Repr

/-- A created filesystem entry: its kind and its path. -/
abbrev Entry := FSKind × FPath

/-- Filesystem state: the set of entries that exist, as a list. -/
abbrev FS := List Entry

/-- Create an entry if absent.  Models both `mkdir(exist_ok=True)` on an existing
directory and `touch()` on an existing file: neither is an error and neither
changes the set of entries. -/
def FS.create (fs : FS) (e : Entry) : FS :=
  if e ∈ fs then fs else e :: fs

/-- Apply a list of create operations to a filesystem state, in order. -/
def applyOps (fs : FS) (ops : List Entry) : FS :=
  ops.foldl FS.create fs

/-- A YAML value occurring in the `structure` description of the configuration.
A Python string is kept as its path segments (`base_path / item` splits on the
separator); a dict maps folder names to either a YAML list (`some items`) or a
non-list value (`none`, which lines 62-71 of the source silently ignore); any
other YAML value is skipped by the `isinstance` chain at lines 47-56. -/
inductive SVal where
  | str (segs : List String)
  | dict (entries : List (List String × Option (List SVal)))
  | other

/-- The directory-creation operations performed by
`Path.mkdir(parents=True, exist_ok=True)`: every ancestor of the target is
ensured to exist, ending with the target itself. -/
def mkdirParents (p : FPath) : List Entry :=
  (List.range p.length).map (fun i => (FSKind.dir, p.take (i + 1)))

/-- The operation performed by `Path.touch()`. -/
def touchOp (p : FPath) : Entry := (FSKind.file, p)

mutual

/-- Ops of `create_project_structure(base_path, structure)` (setup_project.py lines
45-75), as the ordered list of filesystem create operations it performs.
The function never reads the filesystem, so the operation list depends only
on the base path and the description. -/
def create_project_structure (base : FPath) : List SVal → List Entry
  | [] => []
  | item :: rest => createItem base item ++ create_project_structure base rest

/-- One iteration of the `for item in structure` loop: a string item is a
directory (with an `__init__.py` marker when the path has a `src` segment,
lines 47-55), a dict item is handled per key (lines 56-75), anything else is
silently skipped. -/
def createItem (base : FPath) : SVal → List Entry
  | .str segs =>
      mkdirParents (base ++ segs) ++
        (if "src" ∈ base ++ segs then [touchOp ((base ++ segs) ++ ["__init__.py"])] else [])
  | .dict entries => createEntries base entries
  | .other => []

/-- The `for folder, nested_items in item.items()` loop (lines 57-75): make the
folder, process its nested value when it is a list (`isinstance(nested_items,
list)`), then add the `src` marker check for the folder itself (the check at
line 72 runs after the nested items). -/
def createEntries (base : FPath) : List (List String × Option (List SVal)) → List Entry
  | [] => []
  | (folder, some items) :: rest =>
      (mkdirParents (base ++ folder) ++ createNested (base ++ folder) items ++
        (if "src" ∈ base ++ folder then [touchOp ((base ++ folder) ++ ["__init__.py"])] else []))
      ++ createEntries base rest
  | (folder, none) :: rest =>
      (mkdirParents (base ++ folder) ++
        (if "src" ∈ base ++ folder then [touchOp ((base ++ folder) ++ ["__init__.py"])] else []))
      ++ createEntries base rest

/-- The inner `for nested_item in nested_items` loop (lines 63-71): a string is
a file to touch, a dict recurses via `create_project_structure(folder_path,
[nested_item])` — which performs exactly the operations of `createItem` on the
single wrapped item (see `create_project_structure_singleton`). -/
def createNested (folderPath : FPath) : List SVal → List Entry
  | [] => []
  | .str name :: rest => touchOp (folderPath ++ name) :: createNested folderPath rest
  | .dict e :: rest => createItem folderPath (.dict e) ++ createNested folderPath rest
  | .other :: rest => createNested folderPath rest

end

mutual

/-- The directory paths explicitly named by the structure description: string
items and dict keys, at every recursion depth (each of which the source passes
through its `"src" in path.parts` check).  Implicitly created parent
directories of multi-segment names are not listed. -/
def explicitDirs (base : FPath) : List SVal → List FPath
  | [] => []
  | .str segs :: rest => (base ++ segs) :: explicitDirs base rest
  | .dict e :: rest => explicitEntryDirs base e ++ explicitDirs base rest
  | .other :: rest => explicitDirs base rest

/-- Restriction of `explicitDirs` to one dict item, per entry. -/
def explicitEntryDirs (base : FPath) : List (List String × Option (List SVal)) → List FPath
  | [] => []
  | (folder, some items) :: rest =>
      (base ++ folder) ::
        (explicitNestedDirs (base ++ folder) items ++ explicitEntryDirs base rest)
  | (folder, none) :: rest => (base ++ folder) :: explicitEntryDirs base rest

/-- Restriction of `explicitDirs` to the nested list of a dict entry (nested
strings are files, not directories). -/
def explicitNestedDirs (folderPath : FPath) : List SVal → List FPath
  | [] => []
  | .str _ :: rest => explicitNestedDirs folderPath rest
  | .dict e :: rest => explicitEntryDirs folderPath e ++ explicitNestedDirs folderPath rest
  | .other :: rest => explicitNestedDirs folderPath rest

end

/-- A value of the parsed TOML manifest (`toml.load` yields nested dicts). -/
inductive TomlVal where
  | str (s : String)
  | int (n : Int)
  | boolean (b : Bool)
  | arr (xs : List TomlVal)
  | table (fields : List (String × TomlVal))

/-- The Python exceptions the script can raise. -/
inductive PyErr where
  | keyError (k : String)
  | typeError
  | calledProcessError (cmd : List String)
  | tomlReadError
deriving DecidableEq, Repr

/-- Dict lookup on the field list of a table. -/
def getKey? (fields : List (String × TomlVal)) (k : String) : Option TomlVal :=
  match fields with
  | [] => none
  | (k2, v) :: rest => if k2 = k then some v else getKey? rest k

/-- Dict assignment `d[k] = v` on the field list of a table: replaces the value in
place if the key is present, appends otherwise. -/
def setKey (fields : List (String × TomlVal)) (k : String) (v : TomlVal) :
    List (String × TomlVal) :=
  match fields with
  | [] => [(k, v)]
  | (k2, w) :: rest => if k2 = k then (k, v) :: rest else (k2, w) :: setKey rest k v

/-- Python subscript read `d[k]`: `KeyError` when the key is missing,
`TypeError` when the value is not a dict. -/
def getItem (v : TomlVal) (k : String) : Except PyErr TomlVal :=
  match v with
  | .table fields =>
      match getKey? fields k with
      | some w => .ok w
      | none => .error (.keyError k)
  | _ => .error .typeError

/-- Python subscript assignment `d[k] = w` (functional): `TypeError` when the
target is not a dict. -/
def setItem (v : TomlVal) (k : String) (w : TomlVal) : Except PyErr TomlVal :=
  match v with
  | .table fields => .ok (.table (setKey fields k w))
  | _ => .error .typeError

/-- Functional rendering of the in-place nested assignment
`d[path₀]…[pathₙ][k] = w`: reads along the path (raising as `getItem` does),
replaces the final field, and rebuilds the spine — which is what the aliased
mutation amounts to. -/
def setAt (v : TomlVal) (path : List String) (k : String) (w : TomlVal) :
    Except PyErr TomlVal :=
  match path with
  | [] => setItem v k w
  | k0 :: rest =>
      match getItem v k0 with
      | .error e => .error e
      | .ok child =>
          match setAt child rest k w with
          | .error e => .error e
          | .ok child2 => setItem v k0 child2

/-- Pure nested lookup along a key path (`none` when absent or not a table). -/
def pathGet? (v : TomlVal) : List String → Option TomlVal
  | [] => some v
  | k :: rest =>
      match v with
      | .table fields =>
          match getKey? fields k with
          | some w => pathGet? w rest
          | none => none
      | _ => none

/-- Predicate `deviates ks target`: true when the two key paths differ at some position
that both possess — so a write whose full target path is `target` cannot be
seen by a read along `ks`. -/
def deviates : List String → List String → Bool
  | [], _ => false
  | _, [] => false
  | a :: as, b :: bs => a != b || deviates as bs

/-- The parsed YAML configuration document.  Every key the script reads is
modelled; `none` means the key is absent.  For `dependencies` the outer
`Option` is key presence and the inner one distinguishes an explicit null
(`None`) from a group mapping, since line 247 checks `is not None`. -/
structure Config where
  project_name : Option String := none
  version : Option String := none
  python_version : Option String := none
  dependencies : Option (Option (List (String × List String))) := none
  structureDesc : Option (List SVal) := none
  remote_url : Option String := none
  pre_commit_config_url : Option String := none
  gitignore_url : Option String := none
  license_url : Option String := none

/-- Embedding of `update_pyproject(base_path, config)` (lines 130-141), acting on the parsed
manifest.  Statement order follows the source: name, version, readme, the
runtime constraint, authors.  The runtime constraint is
`"^" + config.get("python_version")` — `config.get` has no default there, so a
missing `python_version` key makes the string concatenation raise `TypeError`
(evaluated before the assignment target is resolved).  The final
`toml.dump` write is recorded as an event by `main`. -/
def update_pyproject (config : Config) (pyproject : TomlVal) : Except PyErr TomlVal :=
  match config.project_name with
  | none => .error (.keyError "project_name")
  | some name =>
    match setAt pyproject ["tool", "poetry"] "name" (.str name) with
    | .error e => .error e
    | .ok p1 =>
      match setAt p1 ["tool", "poetry"] "version" (.str (config.version.getD "0.1.0")) with
      | .error e => .error e
      | .ok p2 =>
        match setAt p2 ["tool", "poetry"] "readme" (.str "README.md") with
        | .error e => .error e
        | .ok p3 =>
          match config.python_version with
          | none => .error .typeError
          | some pv =>
            match setAt p3 ["tool", "poetry", "dependencies"] "python" (.str ("^" ++ pv)) with
            | .error e => .error e
            | .ok p4 => setAt p4 ["tool", "poetry"] "authors" (.arr [])

/-- An observable side effect of the run. -/
inductive Event where
  | mkdirp (p : FPath)
  | touch (p : FPath)
  | write (p : FPath)
  | runCmd (cmd : List String)
  | httpGet (url : String)
deriving DecidableEq, Repr

/-- Outcomes of the external world: `runO` is the result of a subprocess call
(`.error` = non-zero exit, carrying the captured error text; `.ok` = success,
carrying the captured output), `fetch` is the body text of an HTTP GET
(`none` = a `requests.RequestException` / bad status), and `pyprojectToml` is
the parsed manifest that `toml.load` finds after `poetry init`
(`none` = missing or unreadable). -/
structure Oracle where
  runO : List String → Except String String
  fetch : String → Option String
  pyprojectToml : Option TomlVal

/-- Python truthiness of an optional string (`None` and `""` are falsy):
used for `if remote_url:` and `if gitignore_content:` etc. -/
def truthyOpt (c : Option String) : Bool :=
  match c with
  | none => false
  | some s => s != ""

/-- Events of `setup_pyenv` (lines 17-26): one `pyenv local` call; a
`CalledProcessError` is caught and logged, so the step always completes. -/
def setup_pyenv (python_version : String) : List Event :=
  [Event.runCmd ["pyenv", "local", python_version]]

/-- Events of `set_poetry_environment` (lines 29-42): `pyenv which python`, then on
success `poetry env use <stripped output>`; all failures are caught inside
the function, so it always completes. -/
def set_poetry_environment (o : Oracle) : List Event :=
  match o.runO ["pyenv", "which", "python"] with
  | .ok out =>
      [Event.runCmd ["pyenv", "which", "python"],
       Event.runCmd ["poetry", "env", "use", out.trim]]
  | .error _ => [Event.runCmd ["pyenv", "which", "python"]]

/-- Events of `initial_commit_and_push` (lines 87-93): add, commit, and (when the remote
URL is truthy) push; each call has `check=True` and nothing is caught, so the
first failure aborts with `CalledProcessError`. -/
def initial_commit_and_push (o : Oracle) (remote_url : Option String) :
    List Event × Option PyErr :=
  match o.runO ["git", "add", "."] with
  | .error _ =>
      ([Event.runCmd ["git", "add", "."]], some (.calledProcessError ["git", "add", "."]))
  | .ok _ =>
      match o.runO ["git", "commit", "-m", "Initial commit"] with
      | .error _ =>
          ([Event.runCmd ["git", "add", "."],
            Event.runCmd ["git", "commit", "-m", "Initial commit"]],
           some (.calledProcessError ["git", "commit", "-m", "Initial commit"]))
      | .ok _ =>
          if truthyOpt remote_url then
            match o.runO ["git", "push", "-u", "origin", "master"] with
            | .error _ =>
                ([Event.runCmd ["git", "add", "."],
                  Event.runCmd ["git", "commit", "-m", "Initial commit"],
                  Event.runCmd ["git", "push", "-u", "origin", "master"]],
                 some (.calledProcessError ["git", "push", "-u", "origin", "master"]))
            | .ok _ =>
                ([Event.runCmd ["git", "add", "."],
                  Event.runCmd ["git", "commit", "-m", "Initial commit"],
                  Event.runCmd ["git", "push", "-u", "origin", "master"]], none)
          else
            ([Event.runCmd ["git", "add", "."],
              Event.runCmd ["git", "commit", "-m", "Initial commit"]], none)

/-- Events of `setup_git` (lines 78-84): `git init` (checked), then when the remote URL
is truthy `git remote add origin <url>` (checked) followed by
`initial_commit_and_push`. -/
def setup_git (o : Oracle) (remote_url : Option String) : List Event × Option PyErr :=
  match o.runO ["git", "init"] with
  | .error _ => ([Event.runCmd ["git", "init"]], some (.calledProcessError ["git", "init"]))
  | .ok _ =>
      if truthyOpt remote_url then
        let u := remote_url.getD ""
        match o.runO ["git", "remote", "add", "origin", u] with
        | .error _ =>
            ([Event.runCmd ["git", "init"],
              Event.runCmd ["git", "remote", "add", "origin", u]],
             some (.calledProcessError ["git", "remote", "add", "origin", u]))
        | .ok _ =>
            let r := initial_commit_and_push o remote_url
            (Event.runCmd ["git", "init"] ::
              Event.runCmd ["git", "remote", "add", "origin", u] :: r.1, r.2)
      else ([Event.runCmd ["git", "init"]], none)

/-- Events of `create_standard_files` (lines 96-127): fetch and conditionally write
`.gitignore`; fetch and conditionally write `.pre-commit-config.yaml` and, when
it was written, run `pre-commit install` (checked — a failure aborts); fetch
and conditionally write `LICENSE`; always write `README.md` last.  Each write
is guarded by the truthiness of the fetched text (an empty body is falsy and
is skipped like a failure). -/
def create_standard_files (base : FPath)
    (gitignore_url pre_commit_config_url license_url : String) (o : Oracle) :
    List Event × Option PyErr :=
  let gitignoreEvents :=
    Event.httpGet gitignore_url ::
      (if truthyOpt (o.fetch gitignore_url) then [Event.write (base ++ [".gitignore"])] else [])
  let licenseEvents :=
    Event.httpGet license_url ::
      (if truthyOpt (o.fetch license_url) then [Event.write (base ++ ["LICENSE"])] else [])
  if truthyOpt (o.fetch pre_commit_config_url) then
    match o.runO ["pre-commit", "install"] with
    | .error _ =>
        (gitignoreEvents ++
          [Event.httpGet pre_commit_config_url,
           Event.write (base ++ [".pre-commit-config.yaml"]),
           Event.runCmd ["pre-commit", "install"]],
         some (.calledProcessError ["pre-commit", "install"]))
    | .ok _ =>
        (gitignoreEvents ++
          [Event.httpGet pre_commit_config_url,
           Event.write (base ++ [".pre-commit-config.yaml"]),
           Event.runCmd ["pre-commit", "install"]] ++
          licenseEvents ++ [Event.write (base ++ ["README.md"])], none)
  else
    (gitignoreEvents ++ [Event.httpGet pre_commit_config_url] ++
      licenseEvents ++ [Event.write (base ++ ["README.md"])], none)

/-- Events of `create_dockerfile` (lines 143-169): always writes the container build
file (a fixed template with the runtime version substituted). -/
def create_dockerfile (base : FPath) : List Event :=
  [Event.write (base ++ ["Dockerfile"])]

/-- Events of `setup_testing_and_ci_cd` (lines 172-205): `mkdir(parents=True)` on the
`python-app.yml` path, then write `ci-cd.yaml` inside it. -/
def setup_testing_and_ci_cd (base : FPath) : List Event :=
  [Event.mkdirp (base ++ [".github", "workflows", "python-app.yml"]),
   Event.write (base ++ [".github", "workflows", "python-app.yml", "ci-cd.yaml"])]

/-- A single-quote character, for reproducing the error-log message text. -/
def sq : String := (Char.ofNat 39).toString

/-- The message appended to `error_log` at lines 272-277. -/
def errMsg (dep stderr : String) : String :=
  "Failed to add dependency " ++ sq ++ dep ++ sq ++ " due to an error: " ++ stderr

/-- The `poetry add` command built at lines 251-261: `-D` for every group
other than `"main"`, and the `pytorch_cpu` source for `torch`/`torchvision`. -/
def depCmd (group dep : String) : List String :=
  ["poetry", "add"] ++ (if group != "main" then ["-D"] else []) ++
    (if dep ∈ (["torch", "torchvision"] : List String)
      then ["--source", "pytorch_cpu", dep] else [dep])

/-- The inner `for dep in deps` loop of lines 249-277: each add is attempted;
a `CalledProcessError` is caught and its message appended to the error log. -/
def installGroup (o : Oracle) (group : String) : List String → List Event × List String
  | [] => ([], [])
  | dep :: deps =>
      let rest := installGroup o group deps
      (Event.runCmd (depCmd group dep) :: rest.1,
        (match o.runO (depCmd group dep) with
         | .error stderr => errMsg dep stderr :: rest.2
         | .ok _ => rest.2))

/-- The `for group, deps in dependencies.items()` loop of lines 248-277,
returning the commands run and the accumulated `error_log`. -/
def installDeps (o : Oracle) : List (String × List String) → List Event × List String
  | [] => ([], [])
  | (group, deps) :: rest =>
      let g := installGroup o group deps
      let r := installDeps o rest
      (g.1 ++ r.1, g.2 ++ r.2)

/-- Default template URLs of `main` (lines 217-228). -/
def defaultPreCommitUrl : String :=
  "https://raw.githubusercontent.com/pre-commit/pre-commit-hooks/master/ci/pre-commit-config.yaml"

def defaultGitignoreUrl : String :=
  "https://raw.githubusercontent.com/github/gitignore/master/Python.gitignore"

def defaultLicenseUrl : String :=
  "https://github.com/git/git-scm.com/blob/main/MIT-LICENSE.txt"

/-- The filesystem operations of `create_project_structure`, as events (each
ensured directory as one `mkdirp`, each touched file as one `touch`). -/
def structureEvents (base : FPath) (s : List SVal) : List Event :=
  (create_project_structure base s).map (fun e =>
    match e.1 with
    | .dir => Event.mkdirp e.2
    | .file => Event.touch e.2)

/-- Embedding of `main(config_path)` (lines 208-291) after the YAML document has been
parsed into `config`: the ordered trace of side effects, together with the
uncaught exception that aborted the run, if any.  `parent` is the resolved
`Path("..")` directory.  Reading the two required keys precedes every side
effect; a missing key raises `KeyError` (the script defines no ConfigError).
The manifest write of `update_pyproject` is recorded here, after a successful
field update (the `TypeError` at line 136 is raised before the file is
reopened for writing). -/
def main (parent : FPath) (config : Config) (o : Oracle) : List Event × Option PyErr :=
  match config.project_name with
  | none => ([], some (.keyError "project_name"))
  | some project_name =>
  match config.dependencies with
  | none => ([], some (.keyError "dependencies"))
  | some dependencies =>
  let structureDesc := config.structureDesc.getD []
  let remote_url := config.remote_url
  let python_version := config.python_version.getD "3.8"
  let pre_commit_config_url := config.pre_commit_config_url.getD defaultPreCommitUrl
  let gitignore_url := config.gitignore_url.getD defaultGitignoreUrl
  let license_url := config.license_url.getD defaultLicenseUrl
  let base := parent ++ [project_name]
  let es0 := Event.mkdirp base :: structureEvents base structureDesc ++
    setup_pyenv python_version
  let initCmd := ["poetry", "init", "--no-interaction", "--name", project_name]
  match o.runO initCmd with
  | .error _ => (es0 ++ [Event.runCmd initCmd], some (.calledProcessError initCmd))
  | .ok _ =>
  let es1 := es0 ++ [Event.runCmd initCmd] ++ set_poetry_environment o
  match o.pyprojectToml with
  | none => (es1, some .tomlReadError)
  | some manifest =>
  match update_pyproject config manifest with
  | .error e => (es1, some e)
  | .ok _ =>
  let es2 := es1 ++ [Event.write (base ++ ["pyproject.toml"])]
  let esDeps :=
    match dependencies with
    | some deps => (installDeps o deps).1
    | none => []
  let es3 := es2 ++ esDeps ++ create_dockerfile base
  let rGit := setup_git o remote_url
  match rGit.2 with
  | some e => (es3 ++ rGit.1, some e)
  | none =>
  let rStd := create_standard_files base gitignore_url pre_commit_config_url license_url o
  match rStd.2 with
  | some e => (es3 ++ rGit.1 ++ rStd.1, some e)
  | none =>
  (es3 ++ rGit.1 ++ rStd.1 ++ setup_testing_and_ci_cd base, none)

/-- The events `main` performs before it calls `setup_git` (lines 232-279),
assembled from the component embeddings: base directory creation, the
Structure Builder, the Toolchain Binder, `poetry init`, the environment
binding, the manifest write, the Dependency Installer, and the container
build file.  `dependencies` is the value main reads for the required key. -/
def preVcsEvents (parent : FPath) (name : String) (config : Config) (o : Oracle)
    (dependencies : Option (List (String × List String))) : List Event :=
  Event.mkdirp (parent ++ [name]) ::
    structureEvents (parent ++ [name]) (config.structureDesc.getD []) ++
    setup_pyenv (config.python_version.getD "3.8") ++
    [Event.runCmd ["poetry", "init", "--no-interaction", "--name", name]] ++
    set_poetry_environment o ++
    [Event.write (parent ++ [name] ++ ["pyproject.toml"])] ++
    (match dependencies with
     | some ds => (installDeps o ds).1
     | none => []) ++
    create_dockerfile (parent ++ [name])

/-! ### Concrete fixtures used by counterexamples and witnesses -/

/-- A manifest as `poetry init` would have produced it in the all-success
environment below. -/
def manifestPoetry0 : TomlVal :=
  .table [("tool", .table [("poetry", .table [
    ("name", .str "placeholder"), ("version", .str "0.0.0"),
    ("dependencies", .table [("python", .str "^3.12")])])])]

/-- An environment in which every command succeeds, every fetch returns a
non-empty body, and `poetry init` produced an ordinary manifest. -/
def oracleAllOk : Oracle :=
  { runO := fun _ => .ok "",
    fetch := fun _ => some "content",
    pyprojectToml := some manifestPoetry0 }

/-- Like `oracleAllOk` but the ignore-file template URL is unreachable. -/
def oracleIgnoreFails : Oracle :=
  { oracleAllOk with
    fetch := fun u => if u = "http://ignore.example/gitignore" then none else some "content" }

/-- A complete configuration exercising the full pipeline. -/
def cfgFull : Config :=
  { project_name := some "proj",
    dependencies := some (some [("main", ["a"])]),
    python_version := some "3.10",
    remote_url := some "https://example.com/r.git" }

/-- A configuration with both required keys but no `python_version`. -/
def cfgNoPyVersion : Config :=
  { project_name := some "proj", dependencies := some none }

/-- Variant of `cfgNoPyVersion` with a `python_version`. -/
def cfgWithPy310 : Config :=
  { project_name := some "proj", dependencies := some none,
    python_version := some "3.10" }

/-- A manifest as `poetry init` would have produced it, with extra fields to
observe the frame property. -/
def manifestInit : TomlVal :=
  .table [
    ("tool", .table [
      ("poetry", .table [
        ("name", .str "placeholder"),
        ("version", .str "0.0.0"),
        ("description", .str "a project"),
        ("license", .str "MIT"),
        ("authors", .arr [.str "someone"]),
        ("dependencies", .table [
          ("python", .str "^3.12"),
          ("requests", .str "^2.0")])]),
      ("black", .table [("line-length", .int 88)])]),
    ("build-system", .table [("requires", .arr [.str "poetry-core"])])]

/-- Like `oracleAllOk` but every template fetch fails (server unreachable). -/
def oracleTemplatesDown : Oracle :=
  { oracleAllOk with fetch := fun _ => none }

/-- The manifest `manifestInit` after `update_pyproject cfgWithPy310`:
name and version replaced, readme appended, the python constraint replaced,
authors cleared; everything else untouched. -/
def manifestUpdated : TomlVal :=
  .table [
    ("tool", .table [
      ("poetry", .table [
        ("name", .str "proj"),
        ("version", .str "0.1.0"),
        ("description", .str "a project"),
        ("license", .str "MIT"),
        ("authors", .arr []),
        ("dependencies", .table [
          ("python", .str "^3.10"),
          ("requests", .str "^2.0")]),
        ("readme", .str "README.md")]),
      ("black", .table [("line-length", .int 88)])]),
    ("build-system", .table [("requires", .arr [.str "poetry-core"])])]

/-- The manifest provided by `oracleAllOk` after `update_pyproject cfgFull`. -/
def oracleManifestUpdated : TomlVal :=
  .table [("tool", .table [("poetry", .table [
    ("name", .str "proj"),
    ("version", .str "0.1.0"),
    ("dependencies", .table [("python", .str "^3.10")]),
    ("readme", .str "README.md"),
    ("authors", .arr [])])])]

/-! ### Helper lemmas -/

/-- The recursive call `create_project_structure(folder_path, [nested_item])`
in the source performs exactly the operations modelled by `createItem`. -/
theorem create_project_structure_singleton (base : FPath) (item : SVal) :
    create_project_structure base [item] = createItem base item := by
  simp [create_project_structure]

theorem mem_create {fs : FS} {o e : Entry} :
    e ∈ fs.create o ↔ e = o ∨ e ∈ fs := by
  unfold FS.create
  split
  · next h => exact ⟨Or.inr, fun h2 => h2.elim (fun he => he ▸ h) id⟩
  · exact List.mem_cons

/-- Membership after applying create operations: an entry exists afterwards iff
it existed before or is one of the operations. -/
theorem mem_applyOps {fs : FS} {ops : List Entry} {e : Entry} :
    e ∈ applyOps fs ops ↔ e ∈ fs ∨ e ∈ ops := by
  induction ops generalizing fs with
  | nil => simp [applyOps]
  | cons o rest ih =>
      show e ∈ applyOps (fs.create o) rest ↔ _
      rw [ih]
      simp [mem_create]
      tauto

mutual

theorem marker_of_explicitDirs (base : FPath) (s : List SVal) (p : FPath)
    (hp : p ∈ explicitDirs base s) (hsrc : "src" ∈ p) :
    (FSKind.file, p ++ ["__init__.py"]) ∈ create_project_structure base s := by
  match s with
  | [] => simp [explicitDirs] at hp
  | .str segs :: rest =>
      rw [explicitDirs] at hp
      rw [create_project_structure]
      rcases List.mem_cons.mp hp with rfl | h2
      · refine List.mem_append_left _ ?_
        rw [createItem, if_pos hsrc]
        exact List.mem_append_right _ (List.mem_singleton_self _)
      · exact List.mem_append_right _ (marker_of_explicitDirs base rest p h2 hsrc)
  | .dict e :: rest =>
      rw [explicitDirs] at hp
      rw [create_project_structure, createItem]
      rcases List.mem_append.mp hp with h1 | h2
      · exact List.mem_append_left _ (marker_of_explicitEntryDirs base e p h1 hsrc)
      · exact List.mem_append_right _ (marker_of_explicitDirs base rest p h2 hsrc)
  | .other :: rest =>
      rw [explicitDirs] at hp
      rw [create_project_structure, createItem]
      exact List.mem_append_right _ (marker_of_explicitDirs base rest p hp hsrc)

theorem marker_of_explicitEntryDirs (base : FPath)
    (es : List (List String × Option (List SVal))) (p : FPath)
    (hp : p ∈ explicitEntryDirs base es) (hsrc : "src" ∈ p) :
    (FSKind.file, p ++ ["__init__.py"]) ∈ createEntries base es := by
  match es with
  | [] => simp [explicitEntryDirs] at hp
  | (folder, some items) :: rest =>
      rw [explicitEntryDirs] at hp
      rw [createEntries]
      rcases List.mem_cons.mp hp with rfl | h2
      · refine List.mem_append_left _ (List.mem_append_right _ ?_)
        rw [if_pos hsrc]
        exact List.mem_singleton_self _
      · rcases List.mem_append.mp h2 with h3 | h4
        · refine List.mem_append_left _ (List.mem_append_left _ (List.mem_append_right _ ?_))
          exact marker_of_explicitNestedDirs (base ++ folder) items p h3 hsrc
        · exact List.mem_append_right _ (marker_of_explicitEntryDirs base rest p h4 hsrc)
  | (folder, none) :: rest =>
      rw [explicitEntryDirs] at hp
      rw [createEntries]
      rcases List.mem_cons.mp hp with rfl | h2
      · refine List.mem_append_left _ (List.mem_append_right _ ?_)
        rw [if_pos hsrc]
        exact List.mem_singleton_self _
      · exact List.mem_append_right _ (marker_of_explicitEntryDirs base rest p h2 hsrc)

theorem marker_of_explicitNestedDirs (folderPath : FPath) (s : List SVal) (p : FPath)
    (hp : p ∈ explicitNestedDirs folderPath s) (hsrc : "src" ∈ p) :
    (FSKind.file, p ++ ["__init__.py"]) ∈ createNested folderPath s := by
  match s with
  | [] => simp [explicitNestedDirs] at hp
  | .str name :: rest =>
      rw [explicitNestedDirs] at hp
      rw [createNested]
      exact List.mem_cons_of_mem _ (marker_of_explicitNestedDirs folderPath rest p hp hsrc)
  | .dict e :: rest =>
      rw [explicitNestedDirs] at hp
      rw [createNested, createItem]
      rcases List.mem_append.mp hp with h1 | h2
      · exact List.mem_append_left _ (marker_of_explicitEntryDirs folderPath e p h1 hsrc)
      · exact List.mem_append_right _ (marker_of_explicitNestedDirs folderPath rest p h2 hsrc)
  | .other :: rest =>
      rw [explicitNestedDirs] at hp
      rw [createNested]
      exact marker_of_explicitNestedDirs folderPath rest p hp hsrc

end

theorem getKey_setKey_ne {fields : List (String × TomlVal)} {k k2 : String}
    {v : TomlVal} (h : k2 ≠ k) : getKey? (setKey fields k v) k2 = getKey? fields k2 := by
  have hne : ¬k = k2 := fun he => h he.symm
  induction fields with
  | nil => simp [setKey, getKey?, hne]
  | cons f rest ih =>
      obtain ⟨k3, w⟩ := f
      by_cases h3 : k3 = k
      · subst h3
        simp [setKey, getKey?, hne]
      · by_cases h32 : k3 = k2
        · simp [setKey, getKey?, h3, h32, h]
        · simp [setKey, getKey?, h3, h32, ih]

theorem getKey_setKey_self {fields : List (String × TomlVal)} {k : String}
    {v : TomlVal} : getKey? (setKey fields k v) k = some v := by
  induction fields with
  | nil => simp [setKey, getKey?]
  | cons f rest ih =>
      obtain ⟨k3, w⟩ := f
      by_cases h3 : k3 = k
      · subst h3
        simp [setKey, getKey?]
      · simp [setKey, getKey?, h3, ih]

/-- Frame property of one nested assignment: a read along a path that deviates
from the written path is unchanged. -/
theorem setAt_frame {path : List String} {v v2 w : TomlVal} {k : String}
    (h : setAt v path k w = .ok v2) :
    ∀ ks : List String, deviates ks (path ++ [k]) = true → pathGet? v2 ks = pathGet? v ks := by
  induction path generalizing v v2 with
  | nil =>
      intro ks hdev
      match ks with
      | [] => simp [deviates] at hdev
      | k2 :: rest =>
          simp only [List.nil_append, deviates, Bool.or_eq_true, bne_iff_ne] at hdev
          have hk2 : k2 ≠ k := by
            rcases hdev with h1 | h1
            · exact h1
            · cases rest <;> simp [deviates] at h1
          match v with
          | .table fields =>
              rw [setAt, setItem] at h
              cases h
              simp [pathGet?, getKey_setKey_ne hk2]
          | .str s => simp [setAt, setItem] at h
          | .int n => simp [setAt, setItem] at h
          | .boolean b => simp [setAt, setItem] at h
          | .arr xs => simp [setAt, setItem] at h
  | cons k0 ptail ih =>
      intro ks hdev
      match v with
      | .str s => simp [setAt, getItem] at h
      | .int n => simp [setAt, getItem] at h
      | .boolean b => simp [setAt, getItem] at h
      | .arr xs => simp [setAt, getItem] at h
      | .table fields =>
          rw [setAt] at h
          match hg : getKey? fields k0 with
          | none => simp [getItem, hg] at h
          | some child =>
              simp only [getItem, hg] at h
              match hset : setAt child ptail k w with
              | .error e => simp [hset] at h
              | .ok child2 =>
                  simp only [hset, setItem, Except.ok.injEq] at h
                  subst h
                  match ks with
                  | [] => simp [deviates] at hdev
                  | k2 :: rest =>
                      by_cases hk2 : k2 = k0
                      · subst hk2
                        have hrest : deviates rest (ptail ++ [k]) = true := by
                          simp only [List.cons_append, deviates, Bool.or_eq_true,
                            bne_iff_ne] at hdev
                          rcases hdev with h1 | h1
                          · exact absurd rfl h1
                          · exact h1
                        simp [pathGet?, getKey_setKey_self, hg, ih hset rest hrest]
                      · simp [pathGet?, getKey_setKey_ne hk2, hg]

/-- The Structure Builder never runs a command: its events are directory and
file creations only. -/
theorem runCmd_not_mem_structureEvents (cmd : List String) (base : FPath) (s : List SVal) :
    Event.runCmd cmd ∉ structureEvents base s := by
  intro h
  rcases List.mem_map.mp h with ⟨a, _, hfa⟩
  rcases a with ⟨k, p⟩
  cases k <;> simp at hfa

/-- Every event of the Dependency Installer is a `poetry add` command. -/
theorem mem_installGroup_shape (o : Oracle) (group : String) (ds : List String)
    (e : Event) (h : e ∈ (installGroup o group ds).1) :
    ∃ dep, dep ∈ ds ∧ e = Event.runCmd (depCmd group dep) := by
  induction ds with
  | nil => simp [installGroup] at h
  | cons d rest ih =>
      simp only [installGroup] at h
      rcases List.mem_cons.mp h with rfl | h2
      · exact ⟨d, List.mem_cons_self _ _, rfl⟩
      · obtain ⟨dep, hdep, hde⟩ := ih h2
        exact ⟨dep, List.mem_cons_of_mem _ hdep, hde⟩

theorem mem_installDeps_shape (o : Oracle) (deps : List (String × List String))
    (e : Event) (h : e ∈ (installDeps o deps).1) :
    ∃ g dep, e = Event.runCmd (depCmd g dep) := by
  induction deps with
  | nil => simp [installDeps] at h
  | cons gd rest ih =>
      obtain ⟨g2, ds2⟩ := gd
      simp only [installDeps, List.mem_append] at h
      rcases h with h1 | h2
      · obtain ⟨dep, _, hde⟩ := mem_installGroup_shape o g2 ds2 e h1
        exact ⟨g2, dep, hde⟩
      · exact ih h2

/-- A `poetry add` command is never `git init`. -/
theorem depCmd_ne_git_init (g dep : String) : depCmd g dep ≠ ["git", "init"] := by
  unfold depCmd
  intro h
  rcases List.cons.injEq .. ▸ h with ⟨h1, _⟩
  · simp at h1

theorem git_init_not_mem_installDeps (o : Oracle) (deps : List (String × List String)) :
    Event.runCmd ["git", "init"] ∉ (installDeps o deps).1 := by
  intro h
  obtain ⟨g, dep, hde⟩ := mem_installDeps_shape o deps _ h
  exact depCmd_ne_git_init g dep (Event.runCmd.injEq .. ▸ hde.symm ▸ rfl)

theorem git_init_not_mem_set_poetry_environment (o : Oracle) :
    Event.runCmd ["git", "init"] ∉ set_poetry_environment o := by
  rcases h : o.runO ["pyenv", "which", "python"] <;> simp [set_poetry_environment, h]

/-- A completed `setup_git` began with `git init`. -/
theorem setup_git_ok_shape (o : Oracle) (remote_url : Option String)
    (h : (setup_git o remote_url).2 = none) :
    ∃ tail, (setup_git o remote_url).1 = Event.runCmd ["git", "init"] :: tail := by
  unfold setup_git
  rcases h1 : o.runO ["git", "init"] with e | out
  · rw [setup_git, h1] at h
    simp at h
  · by_cases h2 : truthyOpt remote_url = true
    · simp only [h1, h2, if_true]
      rcases h3 : o.runO ["git", "remote", "add", "origin", remote_url.getD ""] with e | out2
      · rw [setup_git, h1] at h
        simp only [h2, if_true, h3] at h
        simp at h
      · exact ⟨_, rfl⟩
    · simp only [h1, h2]
      exact ⟨[], by simp⟩

/-- A completed `create_standard_files` wrote the readme. -/
theorem readme_mem_create_standard_files (base : FPath)
    (gitignore_url pre_commit_config_url license_url : String) (o : Oracle)
    (h : (create_standard_files base gitignore_url pre_commit_config_url license_url o).2 =
      none) :
    Event.write (base ++ ["README.md"]) ∈
      (create_standard_files base gitignore_url pre_commit_config_url license_url o).1 := by
  unfold create_standard_files at h ⊢
  by_cases hpc : truthyOpt (o.fetch pre_commit_config_url) = true
  · simp only [hpc, if_true] at h ⊢
    rcases h2 : o.runO ["pre-commit", "install"] with e | out
    · rw [h2] at h
      simp at h
    · simp
  · simp only [hpc] at h ⊢
    simp

/-- The Structure Builder performs no `write_text`: its events are directory
creations and touches only. -/
theorem write_not_mem_structureEvents (q : FPath) (base : FPath) (s : List SVal) :
    Event.write q ∉ structureEvents base s := by
  intro h
  rcases List.mem_map.mp h with ⟨a, _, hfa⟩
  rcases a with ⟨k, p⟩
  cases k <;> simp at hfa

theorem write_not_mem_set_poetry_environment (q : FPath) (o : Oracle) :
    Event.write q ∉ set_poetry_environment o := by
  rcases h : o.runO ["pyenv", "which", "python"] <;> simp [set_poetry_environment, h]

theorem write_not_mem_installDeps (o : Oracle) (ds : List (String × List String))
    (q : FPath) : Event.write q ∉ (installDeps o ds).1 := by
  intro h
  obtain ⟨g, dep, hde⟩ := mem_installDeps_shape o ds _ h
  simp at hde

theorem write_not_mem_initial_commit_and_push (o : Oracle) (r : Option String)
    (q : FPath) : Event.write q ∉ (initial_commit_and_push o r).1 := by
  unfold initial_commit_and_push
  rcases h1 : o.runO ["git", "add", "."] with e | o1
  · simp
  · rcases h2 : o.runO ["git", "commit", "-m", "Initial commit"] with e | o2
    · simp
    · by_cases h3 : truthyOpt r = true
      · simp only [h3, if_true]
        rcases h4 : o.runO ["git", "push", "-u", "origin", "master"] with e | o3 <;> simp
      · simp [h3]

/-- The VCS Initializer performs no `write_text`: its events are the git
commands only. -/
theorem write_not_mem_setup_git (o : Oracle) (r : Option String) (q : FPath) :
    Event.write q ∉ (setup_git o r).1 := by
  unfold setup_git
  rcases h1 : o.runO ["git", "init"] with e | o1
  · simp
  · by_cases h2 : truthyOpt r = true
    · simp only [h2, if_true]
      rcases h3 : o.runO ["git", "remote", "add", "origin", r.getD ""] with e | o2
      · simp
      · simp [write_not_mem_initial_commit_and_push]
    · simp [h2]

/-- When the ignore-file fetch is truthy, `create_standard_files` writes the
ignore file (in every branch). -/
theorem gitignore_mem_create_standard_files (base : FPath)
    (gitignore_url pre_commit_config_url license_url : String) (o : Oracle)
    (htru : truthyOpt (o.fetch gitignore_url) = true) :
    Event.write (base ++ [".gitignore"]) ∈
      (create_standard_files base gitignore_url pre_commit_config_url license_url o).1 := by
  unfold create_standard_files
  by_cases hpc : truthyOpt (o.fetch pre_commit_config_url) = true
  · simp only [hpc, if_true]
    rcases h2 : o.runO ["pre-commit", "install"] with e | out <;> simp [htru]
  · simp [hpc, htru]

/-- When the pre-commit config fetch is truthy, `create_standard_files` writes
the pre-commit configuration (whether or not the install then succeeds). -/
theorem precommit_config_mem_create_standard_files (base : FPath)
    (gitignore_url pre_commit_config_url license_url : String) (o : Oracle)
    (htru : truthyOpt (o.fetch pre_commit_config_url) = true) :
    Event.write (base ++ [".pre-commit-config.yaml"]) ∈
      (create_standard_files base gitignore_url pre_commit_config_url license_url o).1 := by
  unfold create_standard_files
  simp only [htru, if_true]
  rcases h2 : o.runO ["pre-commit", "install"] with e | out <;> simp

/-- When the license fetch is truthy and the step completed, the license file
was written (a failing `pre-commit install` would have aborted earlier). -/
theorem license_mem_create_standard_files (base : FPath)
    (gitignore_url pre_commit_config_url license_url : String) (o : Oracle)
    (htru : truthyOpt (o.fetch license_url) = true)
    (hok : (create_standard_files base gitignore_url pre_commit_config_url
      license_url o).2 = none) :
    Event.write (base ++ ["LICENSE"]) ∈
      (create_standard_files base gitignore_url pre_commit_config_url license_url o).1 := by
  unfold create_standard_files at hok ⊢
  by_cases hpc : truthyOpt (o.fetch pre_commit_config_url) = true
  · simp only [hpc, if_true] at hok ⊢
    rcases h2 : o.runO ["pre-commit", "install"] with e | out
    · rw [h2] at hok
      simp at hok
    · simp [htru]
  · simp only [hpc] at hok ⊢
    simp [htru]

/-! ### Claims -/

/-- Claim C1 (code bug): when the configuration omits `python_version`, the
Manifest Editor does not succeed with the documented default `"^3.8"`; line
136 calls `config.get("python_version")` with no default, so `"^" + None` raises
`TypeError` (line 216 of `main` computes a `"3.8"` default, but passes the
raw `config` to `update_pyproject`).  When `python_version` is supplied, the
runtime constraint is set to `"^"` followed by that version, as claimed. -/
theorem manifest_editor_missing_python_version :
    update_pyproject cfgNoPyVersion manifestInit = .error .typeError ∧
    update_pyproject cfgWithPy310 manifestInit = .ok manifestUpdated ∧
    pathGet? manifestUpdated ["tool", "poetry", "dependencies", "python"] =
      some (.str "^3.10") :=
  ⟨rfl, rfl, rfl⟩

/-- Claim C4 counterexample: on the structure description `["src/nested"]`
(a single string item containing a path separator) the builder implicitly
creates the parent directory `src` — whose path contains a `src` segment —
but writes no `__init__.py` directly inside it; only the leaf `src/nested`
receives the marker. -/
theorem implicit_src_parent_lacks_marker :
    (FSKind.dir, ["src"]) ∈
        applyOps [] (create_project_structure [] [SVal.str ["src", "nested"]]) ∧
    "src" ∈ (["src"] : List String) ∧
    (FSKind.file, ["src", "__init__.py"]) ∉
        applyOps [] (create_project_structure [] [SVal.str ["src", "nested"]]) := by
  decide

/-- Claim C4 amended: after the Structure Builder runs, every directory
explicitly named by the structure description (a string item or a mapping key,
at any recursion depth) whose path contains a segment named `src` contains the
package-marker file `__init__.py` directly inside it; directories created only
implicitly, as parents of multi-segment names, are not given the marker. -/
theorem explicit_src_dirs_have_marker (base : FPath) (s : List SVal) (fs : FS)
    (p : FPath) (hp : p ∈ explicitDirs base s) (hsrc : "src" ∈ p) :
    (FSKind.file, p ++ ["__init__.py"]) ∈ applyOps fs (create_project_structure base s) :=
  mem_applyOps.mpr (Or.inr (marker_of_explicitDirs base s p hp hsrc))

/-- Witness for `explicit_src_dirs_have_marker` on a doubly nested directory. -/
theorem explicit_src_dirs_have_marker_witness :
    ["pkg", "src", "sub"] ∈ explicitDirs ["pkg"]
        [SVal.dict [(["src"], some [SVal.dict [(["sub"], some [SVal.str ["mod.py"]])]])]] ∧
    "src" ∈ (["pkg", "src", "sub"] : List String) ∧
    (FSKind.file, ["pkg", "src", "sub", "__init__.py"]) ∈
      applyOps [] (create_project_structure ["pkg"]
        [SVal.dict [(["src"], some [SVal.dict [(["sub"], some [SVal.str ["mod.py"]])]])]]) :=
  ⟨by simp [explicitDirs, explicitEntryDirs, explicitNestedDirs], by decide,
   explicit_src_dirs_have_marker ["pkg"]
     [SVal.dict [(["src"], some [SVal.dict [(["sub"], some [SVal.str ["mod.py"]])]])]]
     [] ["pkg", "src", "sub"]
     (by simp [explicitDirs, explicitEntryDirs, explicitNestedDirs]) (by decide)⟩

/-- Claim C5: for the mapping `{"main": ["a"], "dev": ["b"]}` the installer
runs exactly `poetry add a` (no development flag) and `poetry add -D b`, in
that order, whatever the command outcomes; a failing add contributes its
message to the error log and never prevents the other attempt (the command
list below is the same for every oracle). -/
theorem installer_main_dev_groups (o : Oracle) :
    (installDeps o [("main", ["a"]), ("dev", ["b"])]).1 =
      [Event.runCmd ["poetry", "add", "a"], Event.runCmd ["poetry", "add", "-D", "b"]] ∧
    (installDeps o [("main", ["a"]), ("dev", ["b"])]).2 =
      (match o.runO ["poetry", "add", "a"] with
       | .error stderr => [errMsg "a" stderr]
       | .ok _ => []) ++
      (match o.runO ["poetry", "add", "-D", "b"] with
       | .error stderr => [errMsg "b" stderr]
       | .ok _ => []) := by
  constructor
  · rfl
  · rcases h1 : o.runO ["poetry", "add", "a"] with e1 | o1 <;>
      rcases h2 : o.runO ["poetry", "add", "-D", "b"] with e2 | o2 <;>
      simp [installDeps, installGroup, depCmd, h1, h2]

/-- Claim C6 counterexample: on a configuration missing `project_name` the run
fails with the Python builtin `KeyError` raised by the subscript at line 212 —
the script defines no `ConfigError` anywhere — though indeed before any side
effect (the returned trace is empty). -/
theorem missing_project_name_keyerror_concrete :
    main [] { dependencies := some none } oracleAllOk =
      ([], some (.keyError "project_name")) := rfl

/-- Claim C6 amended: for every configuration lacking `project_name`, the run
fails with a key-lookup error (`KeyError "project_name"`, not a `ConfigError`,
which the script never defines) before any filesystem write, directory
creation, or external process invocation — the event trace is empty. -/
theorem missing_project_name_fails_early (parent : FPath) (config : Config)
    (o : Oracle) (h : config.project_name = none) :
    main parent config o = ([], some (.keyError "project_name")) := by
  rw [main, h]

/-- Witness for `missing_project_name_fails_early`. -/
theorem missing_project_name_fails_early_witness :
    ({ dependencies := some none : Config }.project_name = none) ∧
    main ["w"] { dependencies := some none } oracleTemplatesDown =
      ([], some (.keyError "project_name")) :=
  ⟨rfl, missing_project_name_fails_early ["w"] { dependencies := some none }
    oracleTemplatesDown rfl⟩

/-- Claim C7: running the Structure Builder twice in succession over the same
base path and description yields exactly the same set of filesystem entries as
running it once — creation is idempotent (existing directories are not errors,
existing files are left as they are), and the operations performed depend only
on the description, never on the filesystem state. -/
theorem structure_builder_idempotent (base : FPath) (s : List SVal) (fs : FS) (e : Entry) :
    e ∈ applyOps (applyOps fs (create_project_structure base s))
          (create_project_structure base s) ↔
      e ∈ applyOps fs (create_project_structure base s) := by
  simp only [mem_applyOps]
  tauto

/-- Claim C8: the Manifest Editor is a pure field update.  Whenever
`update_pyproject` succeeds, every manifest field other than the project name,
version, readme reference, runtime-version constraint and authors list is
still present with its old value: top-level keys other than `tool`, keys of
`tool` other than `poetry`, keys of `tool.poetry` other than the five edited
ones, and keys of `tool.poetry.dependencies` other than `python` all read the
same before and after. -/
theorem update_pyproject_frame (config : Config) (p p2 : TomlVal)
    (h : update_pyproject config p = .ok p2) :
    (∀ k, k ≠ "tool" → pathGet? p2 [k] = pathGet? p [k]) ∧
    (∀ k, k ≠ "poetry" → pathGet? p2 ["tool", k] = pathGet? p ["tool", k]) ∧
    (∀ k, k ≠ "name" → k ≠ "version" → k ≠ "readme" → k ≠ "authors" →
      k ≠ "dependencies" →
      pathGet? p2 ["tool", "poetry", k] = pathGet? p ["tool", "poetry", k]) ∧
    (∀ k, k ≠ "python" →
      pathGet? p2 ["tool", "poetry", "dependencies", k] =
        pathGet? p ["tool", "poetry", "dependencies", k]) := by
  rw [update_pyproject] at h
  match hpn : config.project_name with
  | none => simp [hpn] at h
  | some name =>
  simp only [hpn] at h
  match h1 : setAt p ["tool", "poetry"] "name" (.str name) with
  | .error e => simp [h1] at h
  | .ok q1 =>
  simp only [h1] at h
  match h2 : setAt q1 ["tool", "poetry"] "version" (.str (config.version.getD "0.1.0")) with
  | .error e => simp [h2] at h
  | .ok q2 =>
  simp only [h2] at h
  match h3 : setAt q2 ["tool", "poetry"] "readme" (.str "README.md") with
  | .error e => simp [h3] at h
  | .ok q3 =>
  simp only [h3] at h
  match hpv : config.python_version with
  | none => simp [hpv] at h
  | some pv =>
  simp only [hpv] at h
  match h4 : setAt q3 ["tool", "poetry", "dependencies"] "python" (.str ("^" ++ pv)) with
  | .error e => simp [h4] at h
  | .ok q4 =>
  simp only [h4] at h
  refine ⟨?_, ?_, ?_, ?_⟩
  · intro k hk
    rw [setAt_frame h _ (by simp [deviates, hk]),
        setAt_frame h4 _ (by simp [deviates, hk]),
        setAt_frame h3 _ (by simp [deviates, hk]),
        setAt_frame h2 _ (by simp [deviates, hk]),
        setAt_frame h1 _ (by simp [deviates, hk])]
  · intro k hk
    rw [setAt_frame h _ (by simp [deviates, hk]),
        setAt_frame h4 _ (by simp [deviates, hk]),
        setAt_frame h3 _ (by simp [deviates, hk]),
        setAt_frame h2 _ (by simp [deviates, hk]),
        setAt_frame h1 _ (by simp [deviates, hk])]
  · intro k hk1 hk2 hk3 hk4 hk5
    rw [setAt_frame h _ (by simp [deviates, hk4]),
        setAt_frame h4 _ (by simp [deviates, hk5]),
        setAt_frame h3 _ (by simp [deviates, hk3]),
        setAt_frame h2 _ (by simp [deviates, hk2]),
        setAt_frame h1 _ (by simp [deviates, hk1])]
  · intro k hk
    rw [setAt_frame h _ (by simp [deviates]),
        setAt_frame h4 _ (by simp [deviates, hk]),
        setAt_frame h3 _ (by simp [deviates]),
        setAt_frame h2 _ (by simp [deviates]),
        setAt_frame h1 _ (by simp [deviates])]

/-- Witness for `update_pyproject_frame`: on `manifestInit`, the description,
license, black configuration, build-system section, and the `requests`
dependency survive the edit unchanged. -/
theorem update_pyproject_frame_witness :
    update_pyproject cfgWithPy310 manifestInit = .ok manifestUpdated ∧
    pathGet? manifestUpdated ["tool", "poetry", "license"] =
      pathGet? manifestInit ["tool", "poetry", "license"] ∧
    pathGet? manifestUpdated ["build-system"] = pathGet? manifestInit ["build-system"] ∧
    pathGet? manifestUpdated ["tool", "black"] = pathGet? manifestInit ["tool", "black"] ∧
    pathGet? manifestUpdated ["tool", "poetry", "dependencies", "requests"] =
      pathGet? manifestInit ["tool", "poetry", "dependencies", "requests"] :=
  ⟨rfl,
   (update_pyproject_frame cfgWithPy310 manifestInit manifestUpdated rfl).2.2.1 "license"
     (by decide) (by decide) (by decide) (by decide) (by decide),
   (update_pyproject_frame cfgWithPy310 manifestInit manifestUpdated rfl).1 "build-system"
     (by decide),
   (update_pyproject_frame cfgWithPy310 manifestInit manifestUpdated rfl).2.1 "black"
     (by decide),
   (update_pyproject_frame cfgWithPy310 manifestInit manifestUpdated rfl).2.2.2 "requests"
     (by decide)⟩

/-- Claim C9: a configuration with `project_name` but no `dependencies` key
fails immediately with a key-lookup error (`KeyError "dependencies"`, raised
by the subscript at line 213) before any filesystem or process side effect:
the event trace is empty.  The code requires the key even though the spec
lists only `project_name` as required. -/
theorem missing_dependencies_key_fails_early (parent : FPath) (config : Config)
    (o : Oracle) (name : String)
    (hname : config.project_name = some name) (hdep : config.dependencies = none) :
    main parent config o = ([], some (.keyError "dependencies")) := by
  rw [main, hname, hdep]

/-- Witness for `missing_dependencies_key_fails_early`. -/
theorem missing_dependencies_key_fails_early_witness :
    ({ project_name := some "proj" : Config }.project_name = some "proj") ∧
    ({ project_name := some "proj" : Config }.dependencies = none) ∧
    main [] { project_name := some "proj" } oracleAllOk =
      ([], some (.keyError "dependencies")) :=
  ⟨rfl, rfl,
   missing_dependencies_key_fails_early [] { project_name := some "proj" }
     oracleAllOk "proj" rfl rfl⟩

/-- Claim C10: a dependency named exactly `torch` or `torchvision`, in any
group, is added with the extra arguments `--source pytorch_cpu` placed before
the dependency name; every other dependency is added with no source
arguments. -/
theorem torch_dependencies_use_pytorch_source (o : Oracle)
    (deps : List (String × List String)) (group : String) (ds : List String)
    (dep : String) (hg : (group, ds) ∈ deps) (hd : dep ∈ ds) :
    (dep ∈ (["torch", "torchvision"] : List String) →
      Event.runCmd (["poetry", "add"] ++ (if group != "main" then ["-D"] else []) ++
          ["--source", "pytorch_cpu", dep]) ∈ (installDeps o deps).1) ∧
    (dep ∉ (["torch", "torchvision"] : List String) →
      Event.runCmd (["poetry", "add"] ++ (if group != "main" then ["-D"] else []) ++
          [dep]) ∈ (installDeps o deps).1) := by
  have hmem : Event.runCmd (depCmd group dep) ∈ (installDeps o deps).1 := by
    induction deps with
    | nil => cases hg
    | cons gd rest ih =>
        simp only [installDeps, List.mem_append]
        rcases List.mem_cons.mp hg with heq | h2
        · obtain ⟨g2, ds2⟩ := gd
          obtain ⟨hg2, hds2⟩ := Prod.mk.injEq .. ▸ heq
          subst hg2
          subst hds2
          left
          clear hg heq ih
          induction ds with
          | nil => cases hd
          | cons d drest ih2 =>
              simp only [installGroup]
              rcases List.mem_cons.mp hd with rfl | h3
              · exact List.mem_cons_self _ _
              · exact List.mem_cons_of_mem _ (ih2 h3)
        · exact Or.inr (ih h2)
  constructor
  · intro ht
    rw [depCmd, if_pos ht] at hmem
    exact hmem
  · intro ht
    rw [depCmd, if_neg ht] at hmem
    exact hmem

/-- Witness for `torch_dependencies_use_pytorch_source`: in group `dev`,
`torch` gets the source arguments and `x` does not. -/
theorem torch_dependencies_use_pytorch_source_witness :
    Event.runCmd ["poetry", "add", "-D", "--source", "pytorch_cpu", "torch"] ∈
      (installDeps oracleAllOk [("dev", ["torch", "x"])]).1 ∧
    Event.runCmd ["poetry", "add", "-D", "x"] ∈
      (installDeps oracleAllOk [("dev", ["torch", "x"])]).1 :=
  ⟨(torch_dependencies_use_pytorch_source oracleAllOk [("dev", ["torch", "x"])]
      "dev" ["torch", "x"] "torch" (by decide) (by decide)).1 (by decide),
   (torch_dependencies_use_pytorch_source oracleAllOk [("dev", ["torch", "x"])]
      "dev" ["torch", "x"] "x" (by decide) (by decide)).2 (by decide)⟩

/-- Claim C3 counterexample: in a run where only the ignore-file fetch fails
(the pre-commit template URL stays reachable), `pre-commit install` IS
invoked — the installation is guarded by the pre-commit config fetch at line
113, not by the ignore fetch at line 108, so the claim that it is never run
after an ignore-fetch failure is false. -/
theorem precommit_install_despite_ignore_failure :
    oracleIgnoreFails.fetch "http://ignore.example/gitignore" = none ∧
    Event.runCmd ["pre-commit", "install"] ∈
      (create_standard_files ["proj"] "http://ignore.example/gitignore"
        "http://pc.example/config" "http://lic.example/mit" oracleIgnoreFails).1 := by
  constructor
  · rfl
  · decide

/-- Claim C3 amended: when the ignore-file fetch fails, the ignore file is
skipped; the readme is still written and the container build file is written
by the separate Dockerfile step regardless; and the pre-commit installation
command is not invoked provided the pre-commit config fetch also fails or
returns empty text (so that no config is written) — the two fetches are
independent, so an ignore failure alone does not suppress the install. -/
theorem scaffold_survives_ignore_fetch_failure (base : FPath)
    (gitignore_url pre_commit_config_url license_url : String) (o : Oracle)
    (hgi : o.fetch gitignore_url = none)
    (hpc : truthyOpt (o.fetch pre_commit_config_url) = false) :
    (create_standard_files base gitignore_url pre_commit_config_url license_url o).2 =
      none ∧
    Event.write (base ++ ["README.md"]) ∈
      (create_standard_files base gitignore_url pre_commit_config_url license_url o).1 ∧
    Event.runCmd ["pre-commit", "install"] ∉
      (create_standard_files base gitignore_url pre_commit_config_url license_url o).1 ∧
    Event.write (base ++ [".gitignore"]) ∉
      (create_standard_files base gitignore_url pre_commit_config_url license_url o).1 ∧
    Event.write (base ++ ["Dockerfile"]) ∈ create_dockerfile base := by
  have hgi2 : truthyOpt (o.fetch gitignore_url) = false := by rw [hgi]; rfl
  by_cases hl : truthyOpt (o.fetch license_url) = true <;>
    simp [create_standard_files, create_dockerfile, hgi2, hpc, hl]

/-- Witness for `scaffold_survives_ignore_fetch_failure` with every template
server unreachable. -/
theorem scaffold_survives_ignore_fetch_failure_witness :
    oracleTemplatesDown.fetch "http://ignore.example/gitignore" = none ∧
    truthyOpt (oracleTemplatesDown.fetch "http://pc.example/config") = false ∧
    (Event.write ["proj", "README.md"] ∈
      (create_standard_files ["proj"] "http://ignore.example/gitignore"
        "http://pc.example/config" "http://lic.example/mit" oracleTemplatesDown).1 ∧
     Event.runCmd ["pre-commit", "install"] ∉
      (create_standard_files ["proj"] "http://ignore.example/gitignore"
        "http://pc.example/config" "http://lic.example/mit" oracleTemplatesDown).1) :=
  ⟨rfl, rfl,
   (scaffold_survives_ignore_fetch_failure ["proj"] "http://ignore.example/gitignore"
      "http://pc.example/config" "http://lic.example/mit" oracleTemplatesDown
      rfl rfl).2.1,
   (scaffold_survives_ignore_fetch_failure ["proj"] "http://ignore.example/gitignore"
      "http://pc.example/config" "http://lic.example/mit" oracleTemplatesDown
      rfl rfl).2.2.1⟩

/-- Claim C2 counterexample: in a fully successful run (every command and fetch
succeeds), the VCS Initializer runs before most Scaffold Writer outputs exist:
`git init` appears in the trace strictly before the readme write and the CI
workflow write, because `main` calls `setup_git` (line 281) before
`create_standard_files` (line 283) and `setup_testing_and_ci_cd` (line 284).
Only the container build file (line 279) precedes it. -/
theorem vcs_before_scaffold_counterexample :
    (main [] cfgFull oracleAllOk).2 = none ∧
    (main [] cfgFull oracleAllOk).1.indexOf (Event.runCmd ["git", "init"]) <
      (main [] cfgFull oracleAllOk).1.indexOf (Event.write ["proj", "README.md"]) ∧
    (main [] cfgFull oracleAllOk).1.indexOf (Event.runCmd ["git", "init"]) <
      (main [] cfgFull oracleAllOk).1.indexOf
        (Event.write ["proj", ".github", "workflows", "python-app.yml", "ci-cd.yaml"]) ∧
    (main [] cfgFull oracleAllOk).1.indexOf (Event.runCmd ["git", "init"]) <
      (main [] cfgFull oracleAllOk).1.indexOf (Event.write ["proj", ".gitignore"]) :=
  ⟨rfl, by decide, by decide, by decide⟩

/-- Claim C2 amended: in every run that reaches completion, the pipeline order
is: structure building, toolchain binding, manifest editing, dependency
installation and the container build file first, then the whole VCS
Initializer (`git init`, and remote registration, initial commit and push when
configured), and only after it has finished the remaining Scaffold Writer
outputs (ignore file, pre-commit configuration, license file, readme) and the
CI workflow file.  Formally: the trace is exactly the pre-VCS prefix followed
by the full `setup_git` trace, then the `create_standard_files` trace, then
the CI trace; the container build file write lies in the prefix; the only
writes at or before the VCS step are the manifest and the container build
file — in particular none of the five scaffold outputs is written there — and
each scaffold output that is produced at all (readme and CI file always, the
three fetched files whenever their fetch is truthy) lies in the post-VCS
segments. -/
theorem vcs_between_dockerfile_and_scaffold (parent : FPath) (config : Config)
    (o : Oracle) (name : String) (deps : Option (List (String × List String)))
    (out0 : String) (m m2 : TomlVal)
    (hname : config.project_name = some name)
    (hdeps : config.dependencies = some deps)
    (hinit : o.runO ["poetry", "init", "--no-interaction", "--name", name] = .ok out0)
    (hm : o.pyprojectToml = some m)
    (hupd : update_pyproject config m = .ok m2)
    (hgit : (setup_git o config.remote_url).2 = none)
    (hstd : (create_standard_files (parent ++ [name])
        (config.gitignore_url.getD defaultGitignoreUrl)
        (config.pre_commit_config_url.getD defaultPreCommitUrl)
        (config.license_url.getD defaultLicenseUrl) o).2 = none) :
    (main parent config o).1 =
      preVcsEvents parent name config o deps ++
      (setup_git o config.remote_url).1 ++
      (create_standard_files (parent ++ [name])
        (config.gitignore_url.getD defaultGitignoreUrl)
        (config.pre_commit_config_url.getD defaultPreCommitUrl)
        (config.license_url.getD defaultLicenseUrl) o).1 ++
      setup_testing_and_ci_cd (parent ++ [name]) ∧
    Event.write (parent ++ [name] ++ ["Dockerfile"]) ∈
      preVcsEvents parent name config o deps ∧
    (∀ q, Event.write q ∈ preVcsEvents parent name config o deps ++
        (setup_git o config.remote_url).1 →
      q = parent ++ [name] ++ ["pyproject.toml"] ∨
        q = parent ++ [name] ++ ["Dockerfile"]) ∧
    Event.write (parent ++ [name] ++ [".gitignore"]) ∉
      preVcsEvents parent name config o deps ++ (setup_git o config.remote_url).1 ∧
    Event.write (parent ++ [name] ++ [".pre-commit-config.yaml"]) ∉
      preVcsEvents parent name config o deps ++ (setup_git o config.remote_url).1 ∧
    Event.write (parent ++ [name] ++ ["LICENSE"]) ∉
      preVcsEvents parent name config o deps ++ (setup_git o config.remote_url).1 ∧
    Event.write (parent ++ [name] ++ ["README.md"]) ∉
      preVcsEvents parent name config o deps ++ (setup_git o config.remote_url).1 ∧
    Event.write (parent ++ [name] ++
        [".github", "workflows", "python-app.yml", "ci-cd.yaml"]) ∉
      preVcsEvents parent name config o deps ++ (setup_git o config.remote_url).1 ∧
    Event.write (parent ++ [name] ++ ["README.md"]) ∈
      (create_standard_files (parent ++ [name])
        (config.gitignore_url.getD defaultGitignoreUrl)
        (config.pre_commit_config_url.getD defaultPreCommitUrl)
        (config.license_url.getD defaultLicenseUrl) o).1 ∧
    (truthyOpt (o.fetch (config.gitignore_url.getD defaultGitignoreUrl)) = true →
      Event.write (parent ++ [name] ++ [".gitignore"]) ∈
        (create_standard_files (parent ++ [name])
          (config.gitignore_url.getD defaultGitignoreUrl)
          (config.pre_commit_config_url.getD defaultPreCommitUrl)
          (config.license_url.getD defaultLicenseUrl) o).1) ∧
    (truthyOpt (o.fetch (config.pre_commit_config_url.getD defaultPreCommitUrl)) = true →
      Event.write (parent ++ [name] ++ [".pre-commit-config.yaml"]) ∈
        (create_standard_files (parent ++ [name])
          (config.gitignore_url.getD defaultGitignoreUrl)
          (config.pre_commit_config_url.getD defaultPreCommitUrl)
          (config.license_url.getD defaultLicenseUrl) o).1) ∧
    (truthyOpt (o.fetch (config.license_url.getD defaultLicenseUrl)) = true →
      Event.write (parent ++ [name] ++ ["LICENSE"]) ∈
        (create_standard_files (parent ++ [name])
          (config.gitignore_url.getD defaultGitignoreUrl)
          (config.pre_commit_config_url.getD defaultPreCommitUrl)
          (config.license_url.getD defaultLicenseUrl) o).1) ∧
    Event.write (parent ++ [name] ++
        [".github", "workflows", "python-app.yml", "ci-cd.yaml"]) ∈
      setup_testing_and_ci_cd (parent ++ [name]) := by
  have hchar : ∀ q, Event.write q ∈ preVcsEvents parent name config o deps ++
      (setup_git o config.remote_url).1 →
      q = parent ++ [name] ++ ["pyproject.toml"] ∨
        q = parent ++ [name] ++ ["Dockerfile"] := by
    intro q hq
    by_contra hcon
    push_neg at hcon
    obtain ⟨hc1, hc2⟩ := hcon
    simp only [List.append_assoc, List.cons_append, List.nil_append] at hc1 hc2
    rcases deps with _ | ds <;>
      simp [preVcsEvents, setup_pyenv, create_dockerfile,
        write_not_mem_structureEvents, write_not_mem_set_poetry_environment,
        write_not_mem_installDeps, write_not_mem_setup_git, hc1, hc2] at hq
  have hnot : ∀ fs : List String, fs ≠ ["pyproject.toml"] → fs ≠ ["Dockerfile"] →
      Event.write (parent ++ [name] ++ fs) ∉
        preVcsEvents parent name config o deps ++ (setup_git o config.remote_url).1 := by
    intro fs hf1 hf2 hmem
    rcases hchar _ hmem with he | he
    · exact hf1 (List.append_cancel_left he)
    · exact hf2 (List.append_cancel_left he)
  have heq : (main parent config o).1 =
      preVcsEvents parent name config o deps ++
      (setup_git o config.remote_url).1 ++
      (create_standard_files (parent ++ [name])
        (config.gitignore_url.getD defaultGitignoreUrl)
        (config.pre_commit_config_url.getD defaultPreCommitUrl)
        (config.license_url.getD defaultLicenseUrl) o).1 ++
      setup_testing_and_ci_cd (parent ++ [name]) := by
    rw [main]
    simp only [hname, hdeps, hinit, hm, hupd, hgit, hstd]
    rcases deps with _ | ds <;> simp [preVcsEvents, List.append_assoc]
  refine ⟨heq, ?_, hchar,
    hnot [".gitignore"] (by decide) (by decide),
    hnot [".pre-commit-config.yaml"] (by decide) (by decide),
    hnot ["LICENSE"] (by decide) (by decide),
    hnot ["README.md"] (by decide) (by decide),
    hnot [".github", "workflows", "python-app.yml", "ci-cd.yaml"]
      (by decide) (by decide),
    readme_mem_create_standard_files (parent ++ [name])
      (config.gitignore_url.getD defaultGitignoreUrl)
      (config.pre_commit_config_url.getD defaultPreCommitUrl)
      (config.license_url.getD defaultLicenseUrl) o hstd,
    fun ht => gitignore_mem_create_standard_files (parent ++ [name])
      (config.gitignore_url.getD defaultGitignoreUrl)
      (config.pre_commit_config_url.getD defaultPreCommitUrl)
      (config.license_url.getD defaultLicenseUrl) o ht,
    fun ht => precommit_config_mem_create_standard_files (parent ++ [name])
      (config.gitignore_url.getD defaultGitignoreUrl)
      (config.pre_commit_config_url.getD defaultPreCommitUrl)
      (config.license_url.getD defaultLicenseUrl) o ht,
    fun ht => license_mem_create_standard_files (parent ++ [name])
      (config.gitignore_url.getD defaultGitignoreUrl)
      (config.pre_commit_config_url.getD defaultPreCommitUrl)
      (config.license_url.getD defaultLicenseUrl) o ht hstd,
    by simp [setup_testing_and_ci_cd]⟩
  simp [preVcsEvents, create_dockerfile]

/-- Witness for `vcs_between_dockerfile_and_scaffold` on the all-success run:
the trace decomposes around the full VCS step, the readme is not written at or
before it, and the readme and ignore file appear in the scaffold segment. -/
theorem vcs_between_dockerfile_and_scaffold_witness :
    cfgFull.project_name = some "proj" ∧
    (setup_git oracleAllOk cfgFull.remote_url).2 = none ∧
    (main [] cfgFull oracleAllOk).1 =
      preVcsEvents [] "proj" cfgFull oracleAllOk (some [("main", ["a"])]) ++
      (setup_git oracleAllOk cfgFull.remote_url).1 ++
      (create_standard_files ["proj"] defaultGitignoreUrl defaultPreCommitUrl
        defaultLicenseUrl oracleAllOk).1 ++
      setup_testing_and_ci_cd ["proj"] ∧
    Event.write ["proj", "Dockerfile"] ∈
      preVcsEvents [] "proj" cfgFull oracleAllOk (some [("main", ["a"])]) ∧
    Event.write ["proj", "README.md"] ∉
      preVcsEvents [] "proj" cfgFull oracleAllOk (some [("main", ["a"])]) ++
        (setup_git oracleAllOk cfgFull.remote_url).1 ∧
    Event.write ["proj", "README.md"] ∈
      (create_standard_files ["proj"] defaultGitignoreUrl defaultPreCommitUrl
        defaultLicenseUrl oracleAllOk).1 ∧
    Event.write ["proj", ".gitignore"] ∈
      (create_standard_files ["proj"] defaultGitignoreUrl defaultPreCommitUrl
        defaultLicenseUrl oracleAllOk).1 :=
  ⟨rfl, rfl,
   (vcs_between_dockerfile_and_scaffold [] cfgFull oracleAllOk "proj"
     (some [("main", ["a"])]) "" manifestPoetry0 oracleManifestUpdated
     rfl rfl rfl rfl rfl rfl rfl).1,
   (vcs_between_dockerfile_and_scaffold [] cfgFull oracleAllOk "proj"
     (some [("main", ["a"])]) "" manifestPoetry0 oracleManifestUpdated
     rfl rfl rfl rfl rfl rfl rfl).2.1,
   (vcs_between_dockerfile_and_scaffold [] cfgFull oracleAllOk "proj"
     (some [("main", ["a"])]) "" manifestPoetry0 oracleManifestUpdated
     rfl rfl rfl rfl rfl rfl rfl).2.2.2.2.2.2.1,
   (vcs_between_dockerfile_and_scaffold [] cfgFull oracleAllOk "proj"
     (some [("main", ["a"])]) "" manifestPoetry0 oracleManifestUpdated
     rfl rfl rfl rfl rfl rfl rfl).2.2.2.2.2.2.2.2.1,
   (vcs_between_dockerfile_and_scaffold [] cfgFull oracleAllOk "proj"
     (some [("main", ["a"])]) "" manifestPoetry0 oracleManifestUpdated
     rfl rfl rfl rfl rfl rfl rfl).2.2.2.2.2.2.2.2.2.1 rfl⟩


end SetupProject
